import Mathlib

/-!
# Transparent TCP redirection: `pkg/redirect/tcp_linux.go`

A shallow embedding of `getDestAddr` (original-destination recovery through
`getsockopt`) and of the per-connection handler of
`TCPRedirect.ListenAndServe`, followed by the properties proved about them.

Conventions of the embedding
* a Go `byte` is a `Fin 256`, a fixed-size Go array is a `Mathlib.Vector`;
* a Go slice expression `a[lo:hi]` is `slice a lo hi`;
* kernel calls and the two collaborators (`core.Client.DialTCP`,
  `utils.PipePairWithTimeout`) are parameters of the model, and every call made
  by the code is recorded in a trace;
* the functions of the Go standard library that the code calls
  (`binary.BigEndian.Uint16`, `net.IP.IsLoopback`, `net.TCPAddr.String`, ...)
  are transcribed from the library sources.
-/

namespace Redirect

/-! ## Data model -/

/-- A Go `byte`. -/
abbrev Byte := Fin 256

/-- Go slice expression `a[lo:hi]` on a list. -/
def slice {α : Type} (a : List α) (lo hi : Nat) : List α :=
  (a.drop lo).take (hi - lo)

/-- Linux value of `syscall.AF_INET`. -/
def AF_INET : Nat := 2

/-- Linux value of `syscall.AF_INET6`. -/
def AF_INET6 : Nat := 10

/-- Linux value of `syscall.SOL_IP`. -/
def SOL_IP : Nat := 0

/-- Linux value of `syscall.SOL_IPV6`. -/
def SOL_IPV6 : Nat := 41

/-- Linux/amd64 value of `syscall.SYS_GETSOCKOPT`. -/
def SYS_GETSOCKOPT : Nat := 55

/-- Constant `SO_ORIGINAL_DST` (line 15). -/
def SO_ORIGINAL_DST : Nat := 80

/-- Constant `IP6T_SO_ORIGINAL_DST` (line 16). -/
def IP6T_SO_ORIGINAL_DST : Nat := 80

/-- The Go `error` values that occur: a non-zero `syscall.Errno`, an
`errors.New` value, and errors produced by collaborators (identified by a
number). -/
inductive Error where
  | errno (n : Nat)
  | new (msg : String)
  | other (id : Nat)
  deriving DecidableEq

/-- Type `sockAddr` (lines 77-81): `family uint16`, `port [2]byte`,
`data [24]byte`. -/
structure sockAddr where
  family : Fin 65536
  port : Mathlib.Vector Byte 2
  data : Mathlib.Vector Byte 24
  deriving DecidableEq

/-- The zero value of `sockAddr` (`var addr sockAddr`). -/
def sockAddr.zero : sockAddr :=
  ⟨0, Mathlib.Vector.replicate 2 0, Mathlib.Vector.replicate 24 0⟩

/-- Type `net.TCPAddr`: `IP net.IP` (a byte slice), `Port int`, `Zone string`. -/
structure TCPAddr where
  IP : List Byte
  Port : Int
  Zone : String
  deriving DecidableEq

/-- Go `binary.BigEndian.Uint16(b)`: `uint16(b[1]) | uint16(b[0])<<8`. -/
def bigEndianUint16 (b : Mathlib.Vector Byte 2) : Nat :=
  ((b.get 1).val ||| ((b.get 0).val <<< 8) % 65536) % 65536

/-- What a Go function returning `(*net.TCPAddr, error)` returns. -/
structure AddrResult where
  addr : Option TCPAddr
  err : Option Error
  deriving DecidableEq

/-- The `switch addr.family` of `getDestAddr` (lines 111-118). -/
def decodeAddr (addr : sockAddr) : AddrResult :=
  if addr.family.val = AF_INET then
    ⟨some ⟨slice addr.data.toList 0 4, (bigEndianUint16 addr.port : Nat), ""⟩, none⟩
  else if addr.family.val = AF_INET6 then
    ⟨some ⟨slice addr.data.toList 4 20, (bigEndianUint16 addr.port : Nat), ""⟩, none⟩
  else
    ⟨none, some (Error.new "unknown address family")⟩

/-! ## `getDestAddr` -/

/-- The memory handed to `getsockopt`: the record `addr` and the length
`addrSize` (a `uint32`), both passed by pointer. -/
structure Buf where
  addr : sockAddr
  addrSize : Nat
  deriving DecidableEq

/-- Go `syscall.Syscall6(trap, fd, level, optname, &addr, &addrSize, 0)`: the
kernel is a parameter of the model. From the scalar arguments and the memory
pointed to it gives the memory afterwards and the returned `Errno`
(`0` is success). -/
abbrev Syscall6 := Nat → Nat → Nat → Nat → Buf → Buf × Nat

/-- One `Syscall6` call as issued by the code. -/
structure SysCall where
  trap : Nat
  fd : Nat
  level : Nat
  optname : Nat
  deriving DecidableEq

/-- What `getDestAddr` needs from the accepted connection: the error of
`conn.SyscallConn()` if any, the error of `rc.Control` if any (in which case
the callback is not run; otherwise it is run once with the descriptor `fd`),
and the kernel. -/
structure ConnEnv where
  syscallConn : Option Error
  control : Option Error
  fd : Nat
  syscall6 : Syscall6

/-- State after the callback given to `rc.Control`: memory, the captured
variable `err2`, and the system calls issued, in order. -/
structure QueryState where
  buf : Buf
  err2 : Option Error
  calls : List SysCall

/-- The IPv6-level query (lines 93-94). -/
def queryV6 (fd : Nat) : SysCall := ⟨SYS_GETSOCKOPT, fd, SOL_IPV6, IP6T_SO_ORIGINAL_DST⟩

/-- The IPv4-level query (lines 97-98). -/
def queryV4 (fd : Nat) : SysCall := ⟨SYS_GETSOCKOPT, fd, SOL_IP, SO_ORIGINAL_DST⟩

/-- The callback given to `rc.Control` (lines 91-104). -/
def controlFunc (k : Syscall6) (fd : Nat) (buf : Buf) : QueryState :=
  -- try IPv6 first
  let r6 := k SYS_GETSOCKOPT fd SOL_IPV6 IP6T_SO_ORIGINAL_DST buf
  if r6.2 ≠ 0 then
    -- try IPv4
    let r4 := k SYS_GETSOCKOPT fd SOL_IP SO_ORIGINAL_DST r6.1
    if r4.2 ≠ 0 then
      ⟨r4.1, some (Error.errno r4.2), [queryV6 fd, queryV4 fd]⟩
    else
      ⟨r4.1, none, [queryV6 fd, queryV4 fd]⟩
  else
    ⟨r6.1, none, [queryV6 fd]⟩

/-- Result of `getDestAddr` together with the system calls it issued. -/
structure DestResult where
  res : AddrResult
  calls : List SysCall

/-- Go `unsafe.Sizeof(addr)` for `sockAddr`: 2 + 2 + 24 bytes. -/
def sizeofSockAddr : Nat := 28

/-- Function `getDestAddr` (lines 83-119). -/
def getDestAddr (conn : ConnEnv) : DestResult :=
  match conn.syscallConn with
  | some err => ⟨⟨none, some err⟩, []⟩
  | none =>
    let buf : Buf := ⟨sockAddr.zero, sizeofSockAddr⟩
    match conn.control with
    | some err => ⟨⟨none, some err⟩, []⟩
    | none =>
      let q := controlFunc conn.syscall6 conn.fd buf
      match q.err2 with
      | some err2 => ⟨⟨none, some err2⟩, q.calls⟩
      | none => ⟨decodeAddr q.buf.addr, q.calls⟩

/-! ## Go standard library: `net.IP` -/

/-- Constant `net.IPv4len`. -/
def IPv4len : Nat := 4

/-- Constant `net.IPv6len`. -/
def IPv6len : Nat := 16

/-- Go `net.isZeros`. -/
def isZeros (p : List Byte) : Bool := p.all (fun b => b = 0)

/-- Go `net.v4InV6Prefix`. -/
def v4InV6Prefix : List Byte := [0, 0, 0, 0, 0, 0, 0, 0, 0, 0, 0xff, 0xff]

/-- Go `net.IPv6loopback`. -/
def IPv6loopback : List Byte := [0, 0, 0, 0, 0, 0, 0, 0, 0, 0, 0, 0, 0, 0, 0, 1]

/-- Go `net.IP.To4`; `none` is the nil slice. -/
def To4 (ip : List Byte) : Option (List Byte) :=
  if ip.length = IPv4len then some ip
  else if ip.length = IPv6len ∧ isZeros (slice ip 0 10) = true ∧
      ip.getD 10 0 = 0xff ∧ ip.getD 11 0 = 0xff then
    some (slice ip 12 16)
  else none

/-- Go `net.IP.Equal`. -/
def IPEqual (ip x : List Byte) : Bool :=
  if ip.length = x.length then decide (ip = x)
  else if ip.length = IPv4len ∧ x.length = IPv6len then
    decide (slice x 0 12 = v4InV6Prefix) && decide (ip = x.drop 12)
  else if ip.length = IPv6len ∧ x.length = IPv4len then
    decide (slice ip 0 12 = v4InV6Prefix) && decide (ip.drop 12 = x)
  else false

/-- Go `net.IP.IsLoopback`. -/
def IsLoopback (ip : List Byte) : Bool :=
  match To4 ip with
  | some ip4 => decide (ip4.getD 0 0 = 127)
  | none => IPEqual ip IPv6loopback

/-! ## Go standard library: textual forms -/

/-- Go conversion `byte('0' + v)` to a character: a decimal digit for `v < 10`. -/
def digitByte (v : Nat) : Char := Char.ofNat ((48 + v) % 256)

/-- Go `net.ubtoa`: the decimal form of a byte, without leading zeros. -/
def ubtoa (v : Byte) : List Char :=
  if v.val < 10 then [digitByte v.val]
  else if v.val < 100 then [digitByte (v.val / 10), digitByte (v.val % 10)]
  else [digitByte (v.val / 100), digitByte ((v.val / 10) % 10), digitByte (v.val % 10)]

/-- The loop `for val >= 10` of Go `itoa.Uitoa`, writing `buf` from its end;
`fuel` is the number of free places of the 20-byte buffer besides the last. -/
def uitoaLoop : Nat → Nat → List Char → List Char
  | 0, val, buf => digitByte val :: buf
  | fuel + 1, val, buf =>
    if val ≥ 10 then
      let q := val / 10
      uitoaLoop fuel q (digitByte (val - q * 10) :: buf)
    else digitByte val :: buf

/-- Go `itoa.Uitoa` on a `uint`. -/
def Uitoa (val : Nat) : List Char :=
  if val = 0 then ['0'] else uitoaLoop 19 val []

/-- Go `itoa.Itoa` on an `int`. -/
def Itoa (val : Int) : List Char :=
  if val < 0 then '-' :: Uitoa ((-val).toNat % 2 ^ 64)
  else Uitoa (val.toNat % 2 ^ 64)

/-- Go `net.hexDigit`: `"0123456789abcdef"`. -/
def hexDigit (v : Nat) : Char :=
  "0123456789abcdef".toList.getD v '0'

/-- Go `net.appendHex`: hexadecimal form of a `uint32`, without leading
zeros. -/
def appendHex (dst : List Char) (i : Nat) : List Char :=
  if i = 0 then dst ++ ['0']
  else
    [7, 6, 5, 4, 3, 2, 1, 0].foldl
      (fun dst j =>
        let v := i >>> (j * 4)
        if v > 0 then dst ++ [hexDigit (v &&& 0xf)] else dst)
      dst

/-- Go `net.hexString`: two hexadecimal digits per byte. -/
def hexString (b : List Byte) : List Char :=
  b.flatMap (fun tn => [hexDigit (tn.val >>> 4), hexDigit (tn.val &&& 0xf)])

/-- The inner loop of `net.IP.String`,
`for j < IPv6len && p[j] == 0 && p[j+1] == 0 { j += 2 }`; gives the final `j`. -/
def zeroRunEnd (p : List Byte) : Nat → Nat → Nat
  | 0, j => j
  | fuel + 1, j =>
    if j < IPv6len ∧ p.getD j 0 = 0 ∧ p.getD (j + 1) 0 = 0 then zeroRunEnd p fuel (j + 2)
    else j

/-- The loop of `net.IP.String` that finds the longest run of zeros; gives the
final `(e0, e1)`. -/
def longestZeroRun (p : List Byte) : Nat → Nat → Int → Int → Int × Int
  | 0, _, e0, e1 => (e0, e1)
  | fuel + 1, i, e0, e1 =>
    if i < IPv6len then
      let j := zeroRunEnd p 8 i
      if j > i ∧ (j : Int) - (i : Int) > e1 - e0 then
        longestZeroRun p fuel (j + 2) i j
      else
        longestZeroRun p fuel (i + 2) e0 e1
    else (e0, e1)

/-- The 16-bit group `(uint32(p[i])<<8)|uint32(p[i+1])`. -/
def group16 (p : List Byte) (i : Nat) : Nat :=
  (((p.getD i 0).val <<< 8) ||| (p.getD (i + 1) 0).val) % 2 ^ 32

/-- The printing loop of `net.IP.String`, with `::` in place of the run of
zeros `[e0, e1)`. -/
def printGroups (p : List Byte) (e0 e1 : Int) : Nat → Nat → List Char → List Char
  | 0, _, b => b
  | fuel + 1, i, b =>
    if i < IPv6len then
      if (i : Int) = e0 then
        let b := b ++ [':', ':']
        let i := e1.toNat
        if i ≥ IPv6len then b
        else printGroups p e0 e1 fuel (i + 2) (appendHex b (group16 p i))
      else
        let b := if i > 0 then b ++ [':'] else b
        printGroups p e0 e1 fuel (i + 2) (appendHex b (group16 p i))
    else b

/-- Go `net.IP.String`. -/
def IPString (ip : List Byte) : List Char :=
  if ip.length = 0 then "<nil>".toList
  else
    match To4 ip with
    | some p4 =>
      -- If IPv4, use dotted notation.
      ubtoa (p4.getD 0 0) ++ ['.'] ++ ubtoa (p4.getD 1 0) ++ ['.'] ++
        ubtoa (p4.getD 2 0) ++ ['.'] ++ ubtoa (p4.getD 3 0)
    | none =>
      if ip.length ≠ IPv6len then '?' :: hexString ip
      else
        -- Find longest run of zeros.
        let e := longestZeroRun ip 8 0 (-1) (-1)
        -- The symbol "::" MUST NOT be used to shorten just one 16 bit 0 field.
        let e := if e.2 - e.1 ≤ 2 then ((-1 : Int), (-1 : Int)) else e
        printGroups ip e.1 e.2 8 0 []

/-- Go `net.ipEmptyString`. -/
def ipEmptyString (ip : List Byte) : List Char :=
  if ip.length = 0 then [] else IPString ip

/-- Go `net.JoinHostPort`: the host is put in brackets when it has a colon. -/
def JoinHostPort (host port : List Char) : List Char :=
  if ':' ∈ host then '[' :: host ++ [']', ':'] ++ port
  else host ++ [':'] ++ port

/-- Go `(*net.TCPAddr).String` on a non-nil address. -/
def TCPAddr.String (a : TCPAddr) : String :=
  let ip := ipEmptyString a.IP
  if a.Zone ≠ "" then
    String.mk (JoinHostPort (ip ++ ['%'] ++ a.Zone.toList) (Itoa a.Port))
  else
    String.mk (JoinHostPort ip (Itoa a.Port))

/-! ## The per-connection handler of `ListenAndServe` -/

/-- A connection handle: the accepted connection `c`, or an upstream
connection returned by `DialTCP`. -/
inductive Conn where
  | accepted
  | upstream (id : Nat)
  deriving DecidableEq

/-- The calls made by the per-connection handler (lines 56-73), as recorded
in its trace. -/
inductive Event where
  | getDestAddr (c : Conn)
  | isLoopback (ip : List Byte)
  | connFunc (addr reqAddr : TCPAddr)
  | dialTCP (endpoint : String)
  | errorFunc (addr reqAddr : TCPAddr) (err : Option Error)
  | pipePairWithTimeout (c rc : Conn) (timeout : Int)
  | close (c : Conn)
  | nilDereference
  deriving DecidableEq

/-- Type `TCPRedirect` (lines 19-26). `HyClient` is given by its method
`DialTCP`; the callbacks `ConnFunc` and `ErrorFunc` are observed through the
trace. `Timeout` is a `time.Duration`. -/
structure TCPRedirect where
  HyClient : String → Except Error Nat
  ListenAddr : TCPAddr
  Timeout : Int

/-- One accepted connection: what `getDestAddr` sees of it, the address
returned by `c.RemoteAddr()`, and what `utils.PipePairWithTimeout` returns
once it returns. -/
structure Session where
  conn : ConnEnv
  remoteAddr : TCPAddr
  pipePairWithTimeout : Conn → Conn → Int → Option Error

/-- The function started by `go func() { ... }()` for an accepted connection
(lines 56-73); the deferred calls are run last, in reverse order. -/
def handleConn (r : TCPRedirect) (s : Session) : List Event :=
  let c := Conn.accepted
  let d := (getDestAddr s.conn).res
  match d.err with
  | some _ =>
    -- failed to get the destination address
    [Event.getDestAddr c] ++ [Event.close c]
  | none =>
    match d.addr with
    | none => [Event.getDestAddr c, Event.nilDereference] ++ [Event.close c]
    | some dest =>
      if IsLoopback dest.IP then
        -- a loopback address (not a redirected connection)
        [Event.getDestAddr c, Event.isLoopback dest.IP] ++ [Event.close c]
      else
        let t := [Event.getDestAddr c, Event.isLoopback dest.IP,
          Event.connFunc s.remoteAddr dest, Event.dialTCP dest.String]
        match r.HyClient dest.String with
        | Except.error err =>
          t ++ [Event.errorFunc s.remoteAddr dest (some err)] ++ [Event.close c]
        | Except.ok id =>
          let rc := Conn.upstream id
          let err := s.pipePairWithTimeout c rc r.Timeout
          t ++ [Event.pipePairWithTimeout c rc r.Timeout,
            Event.errorFunc s.remoteAddr dest err] ++ [Event.close rc, Event.close c]

/-! ## Vocabulary for the statements -/

/-- Outcome of the IPv6-level query, issued on the zero record. -/
def firstQuery (conn : ConnEnv) : Buf × Nat :=
  conn.syscall6 SYS_GETSOCKOPT conn.fd SOL_IPV6 IP6T_SO_ORIGINAL_DST
    ⟨sockAddr.zero, sizeofSockAddr⟩

/-- Outcome of the IPv4-level query when it is issued: on the memory left by
the IPv6-level query. -/
def secondQuery (conn : ConnEnv) : Buf × Nat :=
  conn.syscall6 SYS_GETSOCKOPT conn.fd SOL_IP SO_ORIGINAL_DST (firstQuery conn).1

/-- An invocation of `ConnFunc`. -/
def Event.isConnFunc : Event → Bool
  | Event.connFunc _ _ => true
  | _ => false

/-- An invocation of `ErrorFunc`. -/
def Event.isErrorFunc : Event → Bool
  | Event.errorFunc _ _ _ => true
  | _ => false

/-- A call of `DialTCP`. -/
def Event.isDialTCP : Event → Bool
  | Event.dialTCP _ => true
  | _ => false

/-- A call of `utils.PipePairWithTimeout`. -/
def Event.isPipe : Event → Bool
  | Event.pipePairWithTimeout _ _ _ => true
  | _ => false

/-- A call of `Close`. -/
def Event.isClose : Event → Bool
  | Event.close _ => true
  | _ => false

/-- Position of an event among the stages resolve (0), loopback filter (1),
`ConnFunc` (2), dial (3), pipe (4). -/
def Event.stage : Event → Option Nat
  | Event.getDestAddr _ => some 0
  | Event.isLoopback _ => some 1
  | Event.connFunc _ _ => some 2
  | Event.dialTCP _ => some 3
  | Event.pipePairWithTimeout _ _ _ => some 4
  | _ => none

/-- The upstream connection of a session: the one `DialTCP` returned, if the
session reached the dial and the dial succeeded. -/
def upstreamOf (r : TCPRedirect) (s : Session) : Option Nat :=
  match (getDestAddr s.conn).res with
  | ⟨some dest, none⟩ =>
    if IsLoopback dest.IP then none
    else
      match r.HyClient dest.String with
      | Except.ok id => some id
      | Except.error _ => none
  | _ => none

/-- Dotted decimal form of four bytes: the four decimal numerals separated by
dots. -/
def dottedDecimal (a b c d : Byte) : String :=
  toString a.val ++ "." ++ toString b.val ++ "." ++ toString c.val ++ "." ++ toString d.val

/-! ## Concrete inputs -/

/-- An `AF_INET6` record holding the IPv4-mapped address `::ffff:1.2.3.4` and
the port 80. -/
def mappedRecord : sockAddr :=
  ⟨10, ⟨[0, 80], rfl⟩,
    ⟨[0, 0, 0, 0, 0, 0, 0, 0, 0, 0, 0, 0, 0, 0, 0xff, 0xff, 1, 2, 3, 4, 0, 0, 0, 0], rfl⟩⟩

/-- A session from `10.0.0.2:40000` whose kernel answers the IPv6-level query
with `mappedRecord`, and whose pipe ends with nil. -/
def mappedSession : Session :=
  ⟨⟨none, none, 7, fun _ _ _ _ buf => (⟨mappedRecord, buf.addrSize⟩, 0)⟩,
    ⟨[10, 0, 0, 2], 40000, ""⟩, fun _ _ _ => none⟩

/-- A redirector whose tunnel client always returns the upstream connection 1. -/
def sampleRedirect : TCPRedirect :=
  ⟨fun _ => Except.ok 1, ⟨[0, 0, 0, 0], 1080, ""⟩, 300⟩


/-! ## Helper lemmas -/

/-- The big-endian reading of the two port bytes is `256 * port[0] + port[1]`. -/
theorem bigEndianUint16_eq (b : Mathlib.Vector Byte 2) :
    bigEndianUint16 b = 256 * (b.get 0).val + (b.get 1).val := by
  unfold bigEndianUint16
  have h0 := (b.get 0).isLt
  have h1 := (b.get 1).isLt
  rw [Nat.shiftLeft_eq]
  have e : (b.get 0).val * 2 ^ 8 % 65536 = 2 ^ 8 * (b.get 0).val := by omega
  rw [e, Nat.or_comm, ← Nat.mul_add_lt_is_or (by omega)]
  omega

/-- A 24-byte array is the list of its 24 entries. -/
theorem vector24_eq (v : Mathlib.Vector Byte 24) :
    v.toList = [v.get 0, v.get 1, v.get 2, v.get 3, v.get 4, v.get 5, v.get 6, v.get 7,
      v.get 8, v.get 9, v.get 10, v.get 11, v.get 12, v.get 13, v.get 14, v.get 15,
      v.get 16, v.get 17, v.get 18, v.get 19, v.get 20, v.get 21, v.get 22, v.get 23] := by
  rcases v with ⟨l, hl⟩
  iterate 24 (rcases l with _ | ⟨_, l⟩; · simp at hl)
  rcases l with _ | ⟨_, l⟩
  · rfl
  · simp at hl

/-- The payload slice `data[:4]`. -/
theorem slice_data_0_4 (v : Mathlib.Vector Byte 24) :
    slice v.toList 0 4 = [v.get 0, v.get 1, v.get 2, v.get 3] := by
  rw [vector24_eq v]; rfl

/-- The payload slice `data[4:20]`. -/
theorem slice_data_4_20 (v : Mathlib.Vector Byte 24) :
    slice v.toList 4 20 = [v.get 4, v.get 5, v.get 6, v.get 7, v.get 8, v.get 9, v.get 10,
      v.get 11, v.get 12, v.get 13, v.get 14, v.get 15, v.get 16, v.get 17, v.get 18,
      v.get 19] := by
  rw [vector24_eq v]; rfl

/-- Decoding of an `AF_INET` record. -/
theorem decodeAddr_inet_eq (addr : sockAddr) (h : addr.family.val = AF_INET) :
    decodeAddr addr =
      ⟨some ⟨[addr.data.get 0, addr.data.get 1, addr.data.get 2, addr.data.get 3],
        ((256 * (addr.port.get 0).val + (addr.port.get 1).val : Nat) : Int), ""⟩, none⟩ := by
  simp only [decodeAddr, h, if_true, slice_data_0_4, bigEndianUint16_eq]

/-- Decoding of an `AF_INET6` record. -/
theorem decodeAddr_inet6_eq (addr : sockAddr) (h : addr.family.val = AF_INET6) :
    decodeAddr addr =
      ⟨some ⟨[addr.data.get 4, addr.data.get 5, addr.data.get 6, addr.data.get 7,
          addr.data.get 8, addr.data.get 9, addr.data.get 10, addr.data.get 11,
          addr.data.get 12, addr.data.get 13, addr.data.get 14, addr.data.get 15,
          addr.data.get 16, addr.data.get 17, addr.data.get 18, addr.data.get 19],
        ((256 * (addr.port.get 0).val + (addr.port.get 1).val : Nat) : Int), ""⟩, none⟩ := by
  have h2 : ¬ addr.family.val = AF_INET := by rw [h]; decide
  unfold decodeAddr
  rw [if_neg h2, if_pos h, slice_data_4_20, bigEndianUint16_eq]

/-- When `SyscallConn` and `Control` succeed and the queries leave `err2` nil,
`getDestAddr` returns the decoding of the record the kernel wrote. -/
theorem getDestAddr_res_of_query_ok (conn : ConnEnv) (hs : conn.syscallConn = none)
    (hc : conn.control = none)
    (hq : (controlFunc conn.syscall6 conn.fd ⟨sockAddr.zero, sizeofSockAddr⟩).err2 = none) :
    (getDestAddr conn).res =
      decodeAddr (controlFunc conn.syscall6 conn.fd ⟨sockAddr.zero, sizeofSockAddr⟩).buf.addr := by
  simp only [getDestAddr, hs, hc, hq]

/-! ## Address decoding (C1, C2, C3) -/

/-- C1: for a record whose family tag is `AF_INET`, whatever its port field
and payload, decoding succeeds with the IP made of the payload bytes
`data[0..4)` in order and the port `256 * port[0] + port[1]`; the result is the
same for every payload that agrees on the bytes `0..3`. -/
theorem decodeAddr_inet (addr : sockAddr) (h : addr.family.val = AF_INET) :
    decodeAddr addr =
      ⟨some ⟨[addr.data.get 0, addr.data.get 1, addr.data.get 2, addr.data.get 3],
        ((256 * (addr.port.get 0).val + (addr.port.get 1).val : Nat) : Int), ""⟩, none⟩ ∧
    ∀ data' : Mathlib.Vector Byte 24,
      (∀ i : Fin 24, i.val < 4 → data'.get i = addr.data.get i) →
      decodeAddr ⟨addr.family, addr.port, data'⟩ = decodeAddr addr := by
  refine ⟨decodeAddr_inet_eq addr h, fun data' hd => ?_⟩
  rw [decodeAddr_inet_eq addr h, decodeAddr_inet_eq ⟨addr.family, addr.port, data'⟩ h]
  simp only [hd 0 (by decide), hd 1 (by decide), hd 2 (by decide), hd 3 (by decide)]

/-- Witness of `decodeAddr_inet`: the record for `192.168.1.10:8080`. -/
theorem decodeAddr_inet_witness :
    decodeAddr ⟨2, ⟨[31, 144], rfl⟩,
        ⟨[192, 168, 1, 10, 9, 9, 9, 9, 9, 9, 9, 9, 9, 9, 9, 9, 9, 9, 9, 9, 9, 9, 9, 9], rfl⟩⟩ =
      ⟨some ⟨[192, 168, 1, 10], 8080, ""⟩, none⟩ :=
  (decodeAddr_inet ⟨2, ⟨[31, 144], rfl⟩,
    ⟨[192, 168, 1, 10, 9, 9, 9, 9, 9, 9, 9, 9, 9, 9, 9, 9, 9, 9, 9, 9, 9, 9, 9, 9], rfl⟩⟩
    (by decide)).1

/-- C2: for a record whose family tag is `AF_INET6`, whatever its port field
and payload, decoding succeeds with the IP made of the 16 payload bytes
`data[4..20)` in order and the port `256 * port[0] + port[1]`; the result is
the same for every payload that agrees on the bytes `4..19`. -/
theorem decodeAddr_inet6 (addr : sockAddr) (h : addr.family.val = AF_INET6) :
    decodeAddr addr =
      ⟨some ⟨[addr.data.get 4, addr.data.get 5, addr.data.get 6, addr.data.get 7,
          addr.data.get 8, addr.data.get 9, addr.data.get 10, addr.data.get 11,
          addr.data.get 12, addr.data.get 13, addr.data.get 14, addr.data.get 15,
          addr.data.get 16, addr.data.get 17, addr.data.get 18, addr.data.get 19],
        ((256 * (addr.port.get 0).val + (addr.port.get 1).val : Nat) : Int), ""⟩, none⟩ ∧
    ∀ data' : Mathlib.Vector Byte 24,
      (∀ i : Fin 24, 4 ≤ i.val → i.val < 20 → data'.get i = addr.data.get i) →
      decodeAddr ⟨addr.family, addr.port, data'⟩ = decodeAddr addr := by
  refine ⟨decodeAddr_inet6_eq addr h, fun data' hd => ?_⟩
  rw [decodeAddr_inet6_eq addr h, decodeAddr_inet6_eq ⟨addr.family, addr.port, data'⟩ h]
  simp only [hd 4 (by decide) (by decide), hd 5 (by decide) (by decide),
    hd 6 (by decide) (by decide), hd 7 (by decide) (by decide),
    hd 8 (by decide) (by decide), hd 9 (by decide) (by decide),
    hd 10 (by decide) (by decide), hd 11 (by decide) (by decide),
    hd 12 (by decide) (by decide), hd 13 (by decide) (by decide),
    hd 14 (by decide) (by decide), hd 15 (by decide) (by decide),
    hd 16 (by decide) (by decide), hd 17 (by decide) (by decide),
    hd 18 (by decide) (by decide), hd 19 (by decide) (by decide)]

/-- Witness of `decodeAddr_inet6`: the record for `[2001:db8::1]:443`. -/
theorem decodeAddr_inet6_witness :
    decodeAddr ⟨10, ⟨[1, 187], rfl⟩,
        ⟨[7, 7, 7, 7, 0x20, 1, 0xd, 0xb8, 0, 0, 0, 0, 0, 0, 0, 0, 0, 0, 0, 1, 5, 5, 5, 5],
          rfl⟩⟩ =
      ⟨some ⟨[0x20, 1, 0xd, 0xb8, 0, 0, 0, 0, 0, 0, 0, 0, 0, 0, 0, 1], 443, ""⟩, none⟩ :=
  (decodeAddr_inet6 ⟨10, ⟨[1, 187], rfl⟩,
    ⟨[7, 7, 7, 7, 0x20, 1, 0xd, 0xb8, 0, 0, 0, 0, 0, 0, 0, 0, 0, 0, 0, 1, 5, 5, 5, 5], rfl⟩⟩
    (by decide)).1

/-- C3: decoding fails exactly for the family tags other than `AF_INET` and
`AF_INET6`; the failure is the error "unknown address family" with a nil
address, whatever the port field and payload. -/
theorem decodeAddr_unknown_family (addr : sockAddr) :
    ((addr.family.val ≠ AF_INET ∧ addr.family.val ≠ AF_INET6) ↔
      decodeAddr addr = ⟨none, some (Error.new "unknown address family")⟩) ∧
    ((decodeAddr addr).err ≠ none ↔
      (addr.family.val ≠ AF_INET ∧ addr.family.val ≠ AF_INET6)) ∧
    ((decodeAddr addr).addr = none ↔ (decodeAddr addr).err ≠ none) := by
  by_cases h4 : addr.family.val = AF_INET
  · have e := decodeAddr_inet_eq addr h4
    simp [e, h4]
  · by_cases h6 : addr.family.val = AF_INET6
    · have e := decodeAddr_inet6_eq addr h6
      simp [e, h6]
    · simp [decodeAddr, h4, h6]


/-! ## The two kernel queries (C4) -/

/-- The callback of `rc.Control`, case by case on the outcomes of the queries. -/
theorem controlFunc_eq (conn : ConnEnv) :
    controlFunc conn.syscall6 conn.fd ⟨sockAddr.zero, sizeofSockAddr⟩ =
      if (firstQuery conn).2 ≠ 0 then
        if (secondQuery conn).2 ≠ 0 then
          ⟨(secondQuery conn).1, some (Error.errno (secondQuery conn).2),
            [queryV6 conn.fd, queryV4 conn.fd]⟩
        else ⟨(secondQuery conn).1, none, [queryV6 conn.fd, queryV4 conn.fd]⟩
      else ⟨(firstQuery conn).1, none, [queryV6 conn.fd]⟩ := by
  rfl

/-- The result of `getDestAddr` is an address without error or an error without
address. -/
theorem getDestAddr_res_cases (conn : ConnEnv) :
    (∃ e, (getDestAddr conn).res = ⟨none, some e⟩) ∨
      (∃ dest, (getDestAddr conn).res = ⟨some dest, none⟩) := by
  unfold getDestAddr
  cases conn.syscallConn with
  | some e => exact Or.inl ⟨e, rfl⟩
  | none =>
    cases conn.control with
    | some e => exact Or.inl ⟨e, rfl⟩
    | none =>
      simp only []
      cases (controlFunc conn.syscall6 conn.fd ⟨sockAddr.zero, sizeofSockAddr⟩).err2 with
      | some e => exact Or.inl ⟨e, rfl⟩
      | none =>
        simp only [decodeAddr]
        split_ifs
        · exact Or.inr ⟨_, rfl⟩
        · exact Or.inr ⟨_, rfl⟩
        · exact Or.inl ⟨_, rfl⟩

/-- C4: when the callback of `rc.Control` runs, the first system call is the
IPv6-level query (level `SOL_IPV6`, option 80); the IPv4-level query (level
`SOL_IP`, option 80) is issued exactly when the IPv6-level query failed, and
then second; `err2` is set exactly when both queries failed, and then
`getDestAddr` returns no address and the `Errno` of the IPv4-level query;
otherwise it goes on to decode the record left by the query that succeeded. -/
theorem getDestAddr_queries (conn : ConnEnv) (hs : conn.syscallConn = none)
    (hc : conn.control = none) :
    (getDestAddr conn).calls.head? = some ⟨SYS_GETSOCKOPT, conn.fd, SOL_IPV6, 80⟩ ∧
    ((getDestAddr conn).calls =
      if (firstQuery conn).2 ≠ 0 then
        [⟨SYS_GETSOCKOPT, conn.fd, SOL_IPV6, 80⟩, ⟨SYS_GETSOCKOPT, conn.fd, SOL_IP, 80⟩]
      else [⟨SYS_GETSOCKOPT, conn.fd, SOL_IPV6, 80⟩]) ∧
    ((⟨SYS_GETSOCKOPT, conn.fd, SOL_IP, 80⟩ : SysCall) ∈ (getDestAddr conn).calls ↔
      (firstQuery conn).2 ≠ 0) ∧
    ((controlFunc conn.syscall6 conn.fd ⟨sockAddr.zero, sizeofSockAddr⟩).err2 ≠ none ↔
      ((firstQuery conn).2 ≠ 0 ∧ (secondQuery conn).2 ≠ 0)) ∧
    (((firstQuery conn).2 ≠ 0 ∧ (secondQuery conn).2 ≠ 0) →
      (getDestAddr conn).res = ⟨none, some (Error.errno (secondQuery conn).2)⟩) ∧
    ((firstQuery conn).2 = 0 →
      (getDestAddr conn).res = decodeAddr (firstQuery conn).1.addr) ∧
    (((firstQuery conn).2 ≠ 0 ∧ (secondQuery conn).2 = 0) →
      (getDestAddr conn).res = decodeAddr (secondQuery conn).1.addr) := by
  have hg : getDestAddr conn =
      match (controlFunc conn.syscall6 conn.fd ⟨sockAddr.zero, sizeofSockAddr⟩).err2 with
      | some err2 => ⟨⟨none, some err2⟩,
          (controlFunc conn.syscall6 conn.fd ⟨sockAddr.zero, sizeofSockAddr⟩).calls⟩
      | none => ⟨decodeAddr
          (controlFunc conn.syscall6 conn.fd ⟨sockAddr.zero, sizeofSockAddr⟩).buf.addr,
          (controlFunc conn.syscall6 conn.fd ⟨sockAddr.zero, sizeofSockAddr⟩).calls⟩ := by
    simp only [getDestAddr, hs, hc]
  rw [hg, controlFunc_eq]
  by_cases h6 : (firstQuery conn).2 = 0
  · simp [h6, queryV6, queryV4, SOL_IP, SOL_IPV6, IP6T_SO_ORIGINAL_DST]
  · by_cases h4 : (secondQuery conn).2 = 0
    · simp [h6, h4, queryV6, queryV4, SOL_IP, SOL_IPV6, IP6T_SO_ORIGINAL_DST,
        SO_ORIGINAL_DST]
    · simp [h6, h4, queryV6, queryV4, SOL_IP, SOL_IPV6, IP6T_SO_ORIGINAL_DST,
        SO_ORIGINAL_DST]

/-- Witness of `getDestAddr_queries`: a kernel on which the IPv6-level query
fails with `ENOPROTOOPT` (92) and the IPv4-level query with `ENOENT` (2). -/
theorem getDestAddr_queries_witness :
    (getDestAddr ⟨none, none, 7, fun _ _ level _ buf => (buf, if level = 41 then 92 else 2)⟩).calls
        = [⟨55, 7, 41, 80⟩, ⟨55, 7, 0, 80⟩] ∧
    (getDestAddr ⟨none, none, 7, fun _ _ level _ buf => (buf, if level = 41 then 92 else 2)⟩).res
        = ⟨none, some (Error.errno 2)⟩ :=
  ⟨(getDestAddr_queries
      ⟨none, none, 7, fun _ _ level _ buf => (buf, if level = 41 then 92 else 2)⟩ rfl rfl).2.1,
    (getDestAddr_queries
      ⟨none, none, 7, fun _ _ level _ buf => (buf, if level = 41 then 92 else 2)⟩ rfl
      rfl).2.2.2.2.1 ⟨by decide, by decide⟩⟩

/-! ## Traces of the per-connection handler -/

/-- Trace of a session whose resolution fails. -/
theorem handleConn_of_error (r : TCPRedirect) (s : Session) (e : Error)
    (h : (getDestAddr s.conn).res.err = some e) :
    handleConn r s = [Event.getDestAddr Conn.accepted, Event.close Conn.accepted] := by
  simp only [handleConn, h]; rfl

/-- Trace of a session whose destination is a loopback address. -/
theorem handleConn_of_loopback (r : TCPRedirect) (s : Session) (dest : TCPAddr)
    (h : (getDestAddr s.conn).res = ⟨some dest, none⟩) (hl : IsLoopback dest.IP = true) :
    handleConn r s = [Event.getDestAddr Conn.accepted, Event.isLoopback dest.IP,
      Event.close Conn.accepted] := by
  simp only [handleConn, h, hl]; rfl

/-- Trace of a session whose dial fails. -/
theorem handleConn_of_dial_error (r : TCPRedirect) (s : Session) (dest : TCPAddr) (e : Error)
    (h : (getDestAddr s.conn).res = ⟨some dest, none⟩) (hl : IsLoopback dest.IP = false)
    (hd : r.HyClient dest.String = Except.error e) :
    handleConn r s = [Event.getDestAddr Conn.accepted, Event.isLoopback dest.IP,
      Event.connFunc s.remoteAddr dest, Event.dialTCP dest.String,
      Event.errorFunc s.remoteAddr dest (some e), Event.close Conn.accepted] := by
  simp only [handleConn, h, hl, hd]; rfl

/-- Trace of a session whose dial succeeds. -/
theorem handleConn_of_dial_ok (r : TCPRedirect) (s : Session) (dest : TCPAddr) (id : Nat)
    (h : (getDestAddr s.conn).res = ⟨some dest, none⟩) (hl : IsLoopback dest.IP = false)
    (hd : r.HyClient dest.String = Except.ok id) :
    handleConn r s = [Event.getDestAddr Conn.accepted, Event.isLoopback dest.IP,
      Event.connFunc s.remoteAddr dest, Event.dialTCP dest.String,
      Event.pipePairWithTimeout Conn.accepted (Conn.upstream id) r.Timeout,
      Event.errorFunc s.remoteAddr dest
        (s.pipePairWithTimeout Conn.accepted (Conn.upstream id) r.Timeout),
      Event.close (Conn.upstream id), Event.close Conn.accepted] := by
  simp only [handleConn, h, hl, hd]; rfl

/-- The four traces a session can have. -/
theorem handleConn_cases (r : TCPRedirect) (s : Session) :
    (upstreamOf r s = none ∧
      handleConn r s = [Event.getDestAddr Conn.accepted, Event.close Conn.accepted]) ∨
    (∃ dest : TCPAddr, upstreamOf r s = none ∧
      handleConn r s = [Event.getDestAddr Conn.accepted, Event.isLoopback dest.IP,
        Event.close Conn.accepted]) ∨
    (∃ (dest : TCPAddr) (e : Error), upstreamOf r s = none ∧
      handleConn r s = [Event.getDestAddr Conn.accepted, Event.isLoopback dest.IP,
        Event.connFunc s.remoteAddr dest, Event.dialTCP dest.String,
        Event.errorFunc s.remoteAddr dest (some e), Event.close Conn.accepted]) ∨
    (∃ (dest : TCPAddr) (id : Nat), upstreamOf r s = some id ∧
      handleConn r s = [Event.getDestAddr Conn.accepted, Event.isLoopback dest.IP,
        Event.connFunc s.remoteAddr dest, Event.dialTCP dest.String,
        Event.pipePairWithTimeout Conn.accepted (Conn.upstream id) r.Timeout,
        Event.errorFunc s.remoteAddr dest
          (s.pipePairWithTimeout Conn.accepted (Conn.upstream id) r.Timeout),
        Event.close (Conn.upstream id), Event.close Conn.accepted]) := by
  rcases getDestAddr_res_cases s.conn with ⟨e, h⟩ | ⟨dest, h⟩
  · left
    refine ⟨?_, handleConn_of_error r s e (by rw [h])⟩
    simp only [upstreamOf, h]
  · cases hl : IsLoopback dest.IP with
    | true =>
      right; left
      refine ⟨dest, ?_, handleConn_of_loopback r s dest h hl⟩
      simp only [upstreamOf, h, hl, if_true]
    | false =>
      cases hd : r.HyClient dest.String with
      | error e =>
        right; right; left
        refine ⟨dest, e, ?_, handleConn_of_dial_error r s dest e h hl hd⟩
        simp [upstreamOf, h, hl, hd]
      | ok id =>
        right; right; right
        refine ⟨dest, id, ?_, handleConn_of_dial_ok r s dest id h hl hd⟩
        simp [upstreamOf, h, hl, hd]

/-! ## Loopback addresses -/

/-- An IPv4 address whose first byte is 127 is a loopback address. -/
theorem IsLoopback_v4 (b c d : Byte) : IsLoopback [127, b, c, d] = true := by
  simp [IsLoopback, To4, IPv4len]

/-- The address `::1` is a loopback address. -/
theorem IsLoopback_v6 : IsLoopback IPv6loopback = true := by
  decide

/-- An IPv4-mapped IPv6 address of `127.0.0.0/8` is a loopback address. -/
theorem IsLoopback_mapped (b c d : Byte) :
    IsLoopback (v4InV6Prefix ++ [127, b, c, d]) = true := by
  simp [IsLoopback, To4, IPv4len, IPv6len, v4InV6Prefix, slice, isZeros]

/-! ## The per-connection handler (C5 - C9) -/

/-- C5: when resolution fails or the resolved destination is a loopback
address, the handler calls neither `ConnFunc` nor `ErrorFunc` nor `DialTCP` nor
the pipe utility, and closes the accepted connection, once, as its last
action. Loopback covers every `AF_INET` record whose first address byte is 127,
the `AF_INET6` record of `::1`, and the `AF_INET6` records of the IPv4-mapped
addresses of `127.0.0.0/8`, whatever the other bytes and the port. -/
theorem handleConn_silent_drop (r : TCPRedirect) (s : Session)
    (h : (getDestAddr s.conn).res.err ≠ none ∨
      ∃ dest, (getDestAddr s.conn).res = ⟨some dest, none⟩ ∧ IsLoopback dest.IP = true) :
    (handleConn r s = [Event.getDestAddr Conn.accepted, Event.close Conn.accepted] ∨
      ∃ dest : TCPAddr, handleConn r s =
        [Event.getDestAddr Conn.accepted, Event.isLoopback dest.IP,
          Event.close Conn.accepted]) ∧
    (∀ e ∈ handleConn r s, e.isConnFunc = false ∧ e.isErrorFunc = false ∧
      e.isDialTCP = false ∧ e.isPipe = false) ∧
    (handleConn r s).count (Event.close Conn.accepted) = 1 ∧
    (handleConn r s).getLast? = some (Event.close Conn.accepted) ∧
    (∀ addr : sockAddr, addr.family.val = AF_INET → addr.data.get 0 = 127 →
      ∃ dest, decodeAddr addr = ⟨some dest, none⟩ ∧ IsLoopback dest.IP = true) ∧
    (∀ addr : sockAddr, addr.family.val = AF_INET6 →
      slice addr.data.toList 4 20 = IPv6loopback →
      ∃ dest, decodeAddr addr = ⟨some dest, none⟩ ∧ IsLoopback dest.IP = true) ∧
    (∀ addr : sockAddr, addr.family.val = AF_INET6 →
      slice addr.data.toList 4 16 = v4InV6Prefix → addr.data.get 16 = 127 →
      ∃ dest, decodeAddr addr = ⟨some dest, none⟩ ∧ IsLoopback dest.IP = true) := by
  have key : handleConn r s = [Event.getDestAddr Conn.accepted, Event.close Conn.accepted] ∨
      ∃ dest : TCPAddr, handleConn r s =
        [Event.getDestAddr Conn.accepted, Event.isLoopback dest.IP,
          Event.close Conn.accepted] := by
    rcases h with h | ⟨dest, h, hl⟩
    · cases he : (getDestAddr s.conn).res.err with
      | none => exact absurd he h
      | some e => exact Or.inl (handleConn_of_error r s e he)
    · exact Or.inr ⟨dest, handleConn_of_loopback r s dest h hl⟩
  refine ⟨key, ?_, ?_, ?_, ?_, ?_, ?_⟩
  · rcases key with k | ⟨dest, k⟩ <;> rw [k] <;>
      simp [Event.isConnFunc, Event.isErrorFunc, Event.isDialTCP, Event.isPipe]
  · rcases key with k | ⟨dest, k⟩ <;> rw [k] <;> simp [List.count_cons]
  · rcases key with k | ⟨dest, k⟩ <;> rw [k] <;> rfl
  · intro addr hf h0
    refine ⟨_, decodeAddr_inet_eq addr hf, ?_⟩
    simp only [h0]
    exact IsLoopback_v4 _ _ _
  · intro addr hf hd
    refine ⟨_, decodeAddr_inet6_eq addr hf, ?_⟩
    simp only []
    rw [← slice_data_4_20, hd]
    exact IsLoopback_v6
  · intro addr hf hd h16
    refine ⟨_, decodeAddr_inet6_eq addr hf, ?_⟩
    rw [vector24_eq addr.data] at hd
    simp only [slice, v4InV6Prefix, List.drop_succ_cons, List.drop_zero, List.take_succ_cons,
      List.take_zero, List.cons.injEq, and_true] at hd
    obtain ⟨e4, e5, e6, e7, e8, e9, e10, e11, e12, e13, e14, e15⟩ := hd
    simp only [e4, e5, e6, e7, e8, e9, e10, e11, e12, e13, e14, e15, h16]
    exact IsLoopback_mapped _ _ _

/-- Witness of `handleConn_silent_drop`: a session whose kernel answers the
IPv6-level query with the `AF_INET` record of `127.0.0.1:8080`. -/
theorem handleConn_silent_drop_witness :
    handleConn ⟨fun _ => Except.ok 1, ⟨[0, 0, 0, 0], 1080, ""⟩, 300⟩
        ⟨⟨none, none, 7, fun _ _ _ _ buf =>
            (⟨⟨2, ⟨[31, 144], rfl⟩,
              ⟨[127, 0, 0, 1, 0, 0, 0, 0, 0, 0, 0, 0, 0, 0, 0, 0, 0, 0, 0, 0, 0, 0, 0, 0],
                rfl⟩⟩, buf.addrSize⟩, 0)⟩,
          ⟨[10, 0, 0, 2], 40000, ""⟩, fun _ _ _ => none⟩ =
      [Event.getDestAddr Conn.accepted, Event.close Conn.accepted] ∨
    ∃ dest : TCPAddr,
      handleConn ⟨fun _ => Except.ok 1, ⟨[0, 0, 0, 0], 1080, ""⟩, 300⟩
        ⟨⟨none, none, 7, fun _ _ _ _ buf =>
            (⟨⟨2, ⟨[31, 144], rfl⟩,
              ⟨[127, 0, 0, 1, 0, 0, 0, 0, 0, 0, 0, 0, 0, 0, 0, 0, 0, 0, 0, 0, 0, 0, 0, 0],
                rfl⟩⟩, buf.addrSize⟩, 0)⟩,
          ⟨[10, 0, 0, 2], 40000, ""⟩, fun _ _ _ => none⟩ =
      [Event.getDestAddr Conn.accepted, Event.isLoopback dest.IP,
        Event.close Conn.accepted] :=
  (handleConn_silent_drop ⟨fun _ => Except.ok 1, ⟨[0, 0, 0, 0], 1080, ""⟩, 300⟩
    ⟨⟨none, none, 7, fun _ _ _ _ buf =>
        (⟨⟨2, ⟨[31, 144], rfl⟩,
          ⟨[127, 0, 0, 1, 0, 0, 0, 0, 0, 0, 0, 0, 0, 0, 0, 0, 0, 0, 0, 0, 0, 0, 0, 0],
            rfl⟩⟩, buf.addrSize⟩, 0)⟩,
      ⟨[10, 0, 0, 2], 40000, ""⟩, fun _ _ _ => none⟩
    (Or.inr ⟨⟨[127, 0, 0, 1], 8080, ""⟩, by decide, by decide⟩)).1

/-- C6: when the destination resolves to a non-loopback address, the trace
begins with resolve, loopback filter, `ConnFunc (client address, destination)`,
`DialTCP`; `ConnFunc` is invoked exactly once and `DialTCP` exactly once, after
it. In every session the stages that occur are an initial part of resolve,
loopback filter, `ConnFunc`, dial, pipe, in this order. -/
theorem handleConn_connFunc_before_dial (r : TCPRedirect) (s : Session) (dest : TCPAddr)
    (h : (getDestAddr s.conn).res = ⟨some dest, none⟩) (hl : IsLoopback dest.IP = false) :
    (∃ rest, handleConn r s =
        [Event.getDestAddr Conn.accepted, Event.isLoopback dest.IP,
          Event.connFunc s.remoteAddr dest, Event.dialTCP dest.String] ++ rest ∧
      ∀ e ∈ rest, e.isConnFunc = false ∧ e.isDialTCP = false) ∧
    (handleConn r s).countP Event.isConnFunc = 1 ∧
    (handleConn r s).countP Event.isDialTCP = 1 ∧
    (∀ (r' : TCPRedirect) (s' : Session),
      (handleConn r' s').filterMap Event.stage <+: [0, 1, 2, 3, 4]) := by
  refine ⟨?_, ?_, ?_, ?_⟩
  · cases hd : r.HyClient dest.String with
    | error e =>
      rw [handleConn_of_dial_error r s dest e h hl hd]
      exact ⟨_, rfl, by simp [Event.isConnFunc, Event.isDialTCP]⟩
    | ok id =>
      rw [handleConn_of_dial_ok r s dest id h hl hd]
      exact ⟨_, rfl, by simp [Event.isConnFunc, Event.isDialTCP]⟩
  · cases hd : r.HyClient dest.String with
    | error e => rw [handleConn_of_dial_error r s dest e h hl hd]; rfl
    | ok id => rw [handleConn_of_dial_ok r s dest id h hl hd]; rfl
  · cases hd : r.HyClient dest.String with
    | error e => rw [handleConn_of_dial_error r s dest e h hl hd]; rfl
    | ok id => rw [handleConn_of_dial_ok r s dest id h hl hd]; rfl
  · intro r' s'
    rcases handleConn_cases r' s' with ⟨_, k⟩ | ⟨d, _, k⟩ | ⟨d, e, _, k⟩ | ⟨d, id, _, k⟩
    · rw [k]; exact ⟨[1, 2, 3, 4], rfl⟩
    · rw [k]; exact ⟨[2, 3, 4], rfl⟩
    · rw [k]; exact ⟨[4], rfl⟩
    · rw [k]; exact ⟨[], rfl⟩

/-- Witness of `handleConn_connFunc_before_dial`: a session whose kernel
answers the IPv6-level query with the `AF_INET` record of `10.1.2.3:8080`. -/
theorem handleConn_connFunc_before_dial_witness :
    (handleConn ⟨fun _ => Except.ok 1, ⟨[0, 0, 0, 0], 1080, ""⟩, 300⟩
        ⟨⟨none, none, 7, fun _ _ _ _ buf =>
            (⟨⟨2, ⟨[31, 144], rfl⟩,
              ⟨[10, 1, 2, 3, 0, 0, 0, 0, 0, 0, 0, 0, 0, 0, 0, 0, 0, 0, 0, 0, 0, 0, 0, 0],
                rfl⟩⟩, buf.addrSize⟩, 0)⟩,
          ⟨[10, 0, 0, 2], 40000, ""⟩, fun _ _ _ => none⟩).countP Event.isConnFunc = 1 :=
  (handleConn_connFunc_before_dial ⟨fun _ => Except.ok 1, ⟨[0, 0, 0, 0], 1080, ""⟩, 300⟩
    ⟨⟨none, none, 7, fun _ _ _ _ buf =>
        (⟨⟨2, ⟨[31, 144], rfl⟩,
          ⟨[10, 1, 2, 3, 0, 0, 0, 0, 0, 0, 0, 0, 0, 0, 0, 0, 0, 0, 0, 0, 0, 0, 0, 0],
            rfl⟩⟩, buf.addrSize⟩, 0)⟩,
      ⟨[10, 0, 0, 2], 40000, ""⟩, fun _ _ _ => none⟩
    ⟨[10, 1, 2, 3], 8080, ""⟩ (by decide) (by decide)).2.1

/-- C7: when the destination resolves to a non-loopback address and `DialTCP`
fails with `e`, the handler invokes `ErrorFunc` exactly once, with (client
address, destination, `e`), never calls the pipe utility, and ends by closing
the accepted connection. -/
theorem handleConn_dial_failure (r : TCPRedirect) (s : Session) (dest : TCPAddr) (e : Error)
    (h : (getDestAddr s.conn).res = ⟨some dest, none⟩) (hl : IsLoopback dest.IP = false)
    (hd : r.HyClient dest.String = Except.error e) :
    handleConn r s = [Event.getDestAddr Conn.accepted, Event.isLoopback dest.IP,
      Event.connFunc s.remoteAddr dest, Event.dialTCP dest.String,
      Event.errorFunc s.remoteAddr dest (some e), Event.close Conn.accepted] ∧
    (handleConn r s).countP Event.isErrorFunc = 1 ∧
    (handleConn r s).countP Event.isPipe = 0 ∧
    (handleConn r s).getLast? = some (Event.close Conn.accepted) := by
  rw [handleConn_of_dial_error r s dest e h hl hd]
  exact ⟨rfl, rfl, rfl, rfl⟩

/-- Witness of `handleConn_dial_failure`: the destination `10.1.2.3:8080` and a
tunnel client whose dial always fails. -/
theorem handleConn_dial_failure_witness :
    (handleConn ⟨fun _ => Except.error (Error.other 5), ⟨[0, 0, 0, 0], 1080, ""⟩, 300⟩
        ⟨⟨none, none, 7, fun _ _ _ _ buf =>
            (⟨⟨2, ⟨[31, 144], rfl⟩,
              ⟨[10, 1, 2, 3, 0, 0, 0, 0, 0, 0, 0, 0, 0, 0, 0, 0, 0, 0, 0, 0, 0, 0, 0, 0],
                rfl⟩⟩, buf.addrSize⟩, 0)⟩,
          ⟨[10, 0, 0, 2], 40000, ""⟩, fun _ _ _ => none⟩).countP Event.isErrorFunc = 1 :=
  (handleConn_dial_failure
    ⟨fun _ => Except.error (Error.other 5), ⟨[0, 0, 0, 0], 1080, ""⟩, 300⟩
    ⟨⟨none, none, 7, fun _ _ _ _ buf =>
        (⟨⟨2, ⟨[31, 144], rfl⟩,
          ⟨[10, 1, 2, 3, 0, 0, 0, 0, 0, 0, 0, 0, 0, 0, 0, 0, 0, 0, 0, 0, 0, 0, 0, 0],
            rfl⟩⟩, buf.addrSize⟩, 0)⟩,
      ⟨[10, 0, 0, 2], 40000, ""⟩, fun _ _ _ => none⟩
    ⟨[10, 1, 2, 3], 8080, ""⟩ (Error.other 5) (by decide) (by decide) rfl).2.1

/-- C8: when the destination resolves to a non-loopback address and `DialTCP`
succeeds, the pipe utility is called exactly once, with (accepted connection,
upstream connection, `Timeout`), and what it returns, nil included, is given
unchanged to `ErrorFunc`, invoked exactly once with (client address,
destination, result). In every session either no callback is invoked, or
`ConnFunc` is invoked once and `ErrorFunc` once after it. -/
theorem handleConn_pipe_result (r : TCPRedirect) (s : Session) (dest : TCPAddr) (id : Nat)
    (h : (getDestAddr s.conn).res = ⟨some dest, none⟩) (hl : IsLoopback dest.IP = false)
    (hd : r.HyClient dest.String = Except.ok id) :
    handleConn r s = [Event.getDestAddr Conn.accepted, Event.isLoopback dest.IP,
      Event.connFunc s.remoteAddr dest, Event.dialTCP dest.String,
      Event.pipePairWithTimeout Conn.accepted (Conn.upstream id) r.Timeout,
      Event.errorFunc s.remoteAddr dest
        (s.pipePairWithTimeout Conn.accepted (Conn.upstream id) r.Timeout),
      Event.close (Conn.upstream id), Event.close Conn.accepted] ∧
    (handleConn r s).countP Event.isPipe = 1 ∧
    (handleConn r s).countP Event.isErrorFunc = 1 ∧
    (∀ (r' : TCPRedirect) (s' : Session),
      (∀ e ∈ handleConn r' s', e.isConnFunc = false ∧ e.isErrorFunc = false) ∨
      (∃ (pre mid post : List Event) (a d : TCPAddr) (err : Option Error),
        handleConn r' s' =
          pre ++ [Event.connFunc a d] ++ mid ++ [Event.errorFunc a d err] ++ post ∧
        ∀ e ∈ pre ++ mid ++ post, e.isConnFunc = false ∧ e.isErrorFunc = false)) := by
  refine ⟨handleConn_of_dial_ok r s dest id h hl hd, ?_, ?_, ?_⟩
  · rw [handleConn_of_dial_ok r s dest id h hl hd]; rfl
  · rw [handleConn_of_dial_ok r s dest id h hl hd]; rfl
  · intro r' s'
    rcases handleConn_cases r' s' with ⟨_, k⟩ | ⟨d, _, k⟩ | ⟨d, e, _, k⟩ | ⟨d, id', _, k⟩
    · left; rw [k]; simp [Event.isConnFunc, Event.isErrorFunc]
    · left; rw [k]; simp [Event.isConnFunc, Event.isErrorFunc]
    · right
      refine ⟨[Event.getDestAddr Conn.accepted, Event.isLoopback d.IP],
        [Event.dialTCP d.String], [Event.close Conn.accepted], s'.remoteAddr, d, some e, ?_, ?_⟩
      · rw [k]; rfl
      · simp [Event.isConnFunc, Event.isErrorFunc]
    · right
      refine ⟨[Event.getDestAddr Conn.accepted, Event.isLoopback d.IP],
        [Event.dialTCP d.String,
          Event.pipePairWithTimeout Conn.accepted (Conn.upstream id') r'.Timeout],
        [Event.close (Conn.upstream id'), Event.close Conn.accepted], s'.remoteAddr, d,
        s'.pipePairWithTimeout Conn.accepted (Conn.upstream id') r'.Timeout, ?_, ?_⟩
      · rw [k]; rfl
      · simp [Event.isConnFunc, Event.isErrorFunc]

/-- Witness of `handleConn_pipe_result`: the destination `10.1.2.3:8080`, a
dial that succeeds and a pipe that returns nil. -/
theorem handleConn_pipe_result_witness :
    handleConn ⟨fun _ => Except.ok 1, ⟨[0, 0, 0, 0], 1080, ""⟩, 300⟩
        ⟨⟨none, none, 7, fun _ _ _ _ buf =>
            (⟨⟨2, ⟨[31, 144], rfl⟩,
              ⟨[10, 1, 2, 3, 0, 0, 0, 0, 0, 0, 0, 0, 0, 0, 0, 0, 0, 0, 0, 0, 0, 0, 0, 0],
                rfl⟩⟩, buf.addrSize⟩, 0)⟩,
          ⟨[10, 0, 0, 2], 40000, ""⟩, fun _ _ _ => none⟩ =
      [Event.getDestAddr Conn.accepted, Event.isLoopback [10, 1, 2, 3],
        Event.connFunc ⟨[10, 0, 0, 2], 40000, ""⟩ ⟨[10, 1, 2, 3], 8080, ""⟩,
        Event.dialTCP (TCPAddr.String ⟨[10, 1, 2, 3], 8080, ""⟩),
        Event.pipePairWithTimeout Conn.accepted (Conn.upstream 1) 300,
        Event.errorFunc ⟨[10, 0, 0, 2], 40000, ""⟩ ⟨[10, 1, 2, 3], 8080, ""⟩ none,
        Event.close (Conn.upstream 1), Event.close Conn.accepted] :=
  (handleConn_pipe_result ⟨fun _ => Except.ok 1, ⟨[0, 0, 0, 0], 1080, ""⟩, 300⟩
    ⟨⟨none, none, 7, fun _ _ _ _ buf =>
        (⟨⟨2, ⟨[31, 144], rfl⟩,
          ⟨[10, 1, 2, 3, 0, 0, 0, 0, 0, 0, 0, 0, 0, 0, 0, 0, 0, 0, 0, 0, 0, 0, 0, 0],
            rfl⟩⟩, buf.addrSize⟩, 0)⟩,
      ⟨[10, 0, 0, 2], 40000, ""⟩, fun _ _ _ => none⟩
    ⟨[10, 1, 2, 3], 8080, ""⟩ 1 (by decide) (by decide) rfl).1

/-- C9: on every path the handler closes the accepted connection exactly
once; it closes an upstream connection exactly when `DialTCP` succeeded, and
then that connection, exactly once; and the closes are the last actions of the
session, after every callback and call. -/
theorem handleConn_closes (r : TCPRedirect) (s : Session) :
    (handleConn r s).count (Event.close Conn.accepted) = 1 ∧
    (∀ id : Nat, (handleConn r s).count (Event.close (Conn.upstream id)) =
      if upstreamOf r s = some id then 1 else 0) ∧
    (∃ pre closes : List Event, handleConn r s = pre ++ closes ∧
      (∀ e ∈ pre, e.isClose = false) ∧ (∀ e ∈ closes, e.isClose = true) ∧
      (closes = [Event.close Conn.accepted] ∨
        ∃ id, upstreamOf r s = some id ∧
          closes = [Event.close (Conn.upstream id), Event.close Conn.accepted])) := by
  rcases handleConn_cases r s with ⟨u, k⟩ | ⟨d, u, k⟩ | ⟨d, e, u, k⟩ | ⟨d, id', u, k⟩
  · rw [k, u]
    refine ⟨by simp [List.count_cons], fun id => by simp [List.count_cons],
      [Event.getDestAddr Conn.accepted], [Event.close Conn.accepted], rfl, ?_, ?_, Or.inl rfl⟩
    · simp [Event.isClose]
    · simp [Event.isClose]
  · rw [k, u]
    refine ⟨by simp [List.count_cons], fun id => by simp [List.count_cons],
      [Event.getDestAddr Conn.accepted, Event.isLoopback d.IP], [Event.close Conn.accepted],
      rfl, ?_, ?_, Or.inl rfl⟩
    · simp [Event.isClose]
    · simp [Event.isClose]
  · rw [k, u]
    refine ⟨by simp [List.count_cons], fun id => by simp [List.count_cons],
      [Event.getDestAddr Conn.accepted, Event.isLoopback d.IP,
        Event.connFunc s.remoteAddr d, Event.dialTCP d.String,
        Event.errorFunc s.remoteAddr d (some e)], [Event.close Conn.accepted],
      rfl, ?_, ?_, Or.inl rfl⟩
    · simp [Event.isClose]
    · simp [Event.isClose]
  · rw [k, u]
    refine ⟨by simp [List.count_cons], fun id => ?_,
      [Event.getDestAddr Conn.accepted, Event.isLoopback d.IP,
        Event.connFunc s.remoteAddr d, Event.dialTCP d.String,
        Event.pipePairWithTimeout Conn.accepted (Conn.upstream id') r.Timeout,
        Event.errorFunc s.remoteAddr d
          (s.pipePairWithTimeout Conn.accepted (Conn.upstream id') r.Timeout)],
      [Event.close (Conn.upstream id'), Event.close Conn.accepted],
      rfl, ?_, ?_, Or.inr ⟨id', rfl, rfl⟩⟩
    · by_cases hid : id' = id
      · subst hid; simp [List.count_cons]
      · have hid' : ¬ id = id' := fun h => hid h.symm
        simp [List.count_cons, hid, hid']
    · simp [Event.isClose]
    · simp [Event.isClose]

/-! ## Textual form of the destination (C10) -/

/-- The Go digit character is the decimal digit. -/
theorem digitByte_eq (d : Nat) (h : d < 10) : digitByte d = Nat.digitChar d := by
  interval_cases d <;> rfl

/-- Enough fuel: the digits do not depend on the fuel of `Nat.toDigitsCore`. -/
theorem toDigitsCore_fuel (f : Nat) :
    ∀ (g n : Nat) (ds : List Char), n < 10 ^ (f + 1) → n < 10 ^ (g + 1) →
      Nat.toDigitsCore 10 (f + 1) n ds = Nat.toDigitsCore 10 (g + 1) n ds := by
  induction f with
  | zero =>
    intro g n ds hf _
    have h0 : n / 10 = 0 := by omega
    simp [Nat.toDigitsCore, h0]
  | succ f ih =>
    intro g n ds hf hg
    by_cases h0 : n / 10 = 0
    · simp [Nat.toDigitsCore, h0]
    · cases g with
      | zero => omega
      | succ g =>
        have e1 : Nat.toDigitsCore 10 (f + 1 + 1) n ds =
            Nat.toDigitsCore 10 (f + 1) (n / 10) (Nat.digitChar (n % 10) :: ds) := by
          rw [Nat.toDigitsCore]; simp [h0]
        have e2 : Nat.toDigitsCore 10 (g + 1 + 1) n ds =
            Nat.toDigitsCore 10 (g + 1) (n / 10) (Nat.digitChar (n % 10) :: ds) := by
          rw [Nat.toDigitsCore]; simp [h0]
        rw [e1, e2]
        apply ih
        · rw [pow_succ] at hf; omega
        · rw [pow_succ] at hg; omega

/-- The loop of `Uitoa` writes the decimal digits. -/
theorem uitoaLoop_eq (fuel : Nat) :
    ∀ (val : Nat) (buf : List Char), val < 10 ^ (fuel + 1) →
      uitoaLoop fuel val buf = Nat.toDigitsCore 10 (fuel + 1) val buf := by
  induction fuel with
  | zero =>
    intro val buf h
    have h0 : val / 10 = 0 := by omega
    have h1 : val % 10 = val := by omega
    simp [uitoaLoop, Nat.toDigitsCore, h0, h1, digitByte_eq val (by omega)]
  | succ fuel ih =>
    intro val buf h
    by_cases h10 : val ≥ 10
    · have h0 : ¬ val / 10 = 0 := by omega
      have hm : val - val / 10 * 10 = val % 10 := by omega
      have e2 : Nat.toDigitsCore 10 (fuel + 1 + 1) val buf =
          Nat.toDigitsCore 10 (fuel + 1) (val / 10) (Nat.digitChar (val % 10) :: buf) := by
        rw [Nat.toDigitsCore]; simp [h0]
      rw [e2, uitoaLoop, if_pos h10]
      simp only [hm]
      rw [digitByte_eq _ (Nat.mod_lt _ (by decide))]
      apply ih
      rw [pow_succ] at h; omega
    · have h0 : val / 10 = 0 := by omega
      have h1 : val % 10 = val := by omega
      rw [uitoaLoop, if_neg h10, Nat.toDigitsCore]
      simp [h0, h1, digitByte_eq val (by omega)]

/-- Go `Uitoa` gives the decimal numeral of every `uint`. -/
theorem Uitoa_eq (val : Nat) (h : val < 2 ^ 64) : Uitoa val = Nat.toDigits 10 val := by
  unfold Uitoa Nat.toDigits
  by_cases h0 : val = 0
  · subst h0; rfl
  · rw [if_neg h0, uitoaLoop_eq 19 val [] (by omega)]
    exact toDigitsCore_fuel 19 val val [] (by omega)
      (lt_of_lt_of_le (Nat.lt_pow_self (by decide) val) (Nat.pow_le_pow_right (by decide)
        (Nat.le_succ val)))

/-- Go `Itoa` on a port number gives its decimal numeral. -/
theorem Itoa_port (p : Nat) (h : p < 65536) : Itoa (p : Int) = Nat.toDigits 10 p := by
  unfold Itoa
  have hn : ¬ ((p : Int) < 0) := by omega
  rw [if_neg hn, Int.toNat_ofNat, Nat.mod_eq_of_lt (by omega), Uitoa_eq p (by omega)]

/-- Go `ubtoa` gives the decimal numeral of a byte. -/
theorem ubtoa_eq (v : Byte) : ubtoa v = Nat.toDigits 10 v.val := by
  have hv := v.isLt
  have e : Nat.toDigits 10 v.val = Nat.toDigitsCore 10 3 v.val [] :=
    toDigitsCore_fuel v.val 2 v.val []
      (lt_of_lt_of_le (Nat.lt_pow_self (by decide) v.val) (Nat.pow_le_pow_right (by decide)
        (Nat.le_succ v.val))) (by omega)
  rw [e]
  unfold ubtoa
  by_cases h1 : v.val < 10
  · have h0 : v.val / 10 = 0 := by omega
    have hm : v.val % 10 = v.val := by omega
    simp [Nat.toDigitsCore, h1, h0, hm, digitByte_eq v.val h1]
  · by_cases h2 : v.val < 100
    · have h0 : ¬ v.val / 10 = 0 := by omega
      have h00 : v.val / 10 / 10 = 0 := by omega
      have hm : v.val / 10 % 10 = v.val / 10 := by omega
      simp [Nat.toDigitsCore, h1, h2, h0, h00, hm, digitByte_eq (v.val / 10) (by omega),
        digitByte_eq (v.val % 10) (by omega)]
    · have h0 : ¬ v.val / 10 = 0 := by omega
      have h00 : ¬ v.val / 10 / 10 = 0 := by omega
      have hd : v.val / 10 / 10 = v.val / 100 := by omega
      have hm : v.val / 100 % 10 = v.val / 100 := by omega
      have h100 : ¬ v.val / 100 = 0 := by omega
      simp [Nat.toDigitsCore, h1, h2, h0, h00, h100, hd, hm, digitByte_eq (v.val / 100) (by omega),
        digitByte_eq (v.val / 10 % 10) (by omega), digitByte_eq (v.val % 10) (by omega)]

/-- A decimal digit is not a colon. -/
theorem digitByte_ne_colon (d : Nat) (h : d < 10) : ¬ ':' = digitByte d := by
  interval_cases d <;> decide

/-- The decimal form of a byte has no colon. -/
theorem colon_not_mem_ubtoa (v : Byte) : ':' ∉ ubtoa v := by
  have hv := v.isLt
  unfold ubtoa
  split_ifs with h1 h2
  · simp [digitByte_ne_colon v.val h1]
  · simp [digitByte_ne_colon (v.val / 10) (by omega), digitByte_ne_colon (v.val % 10) (by omega)]
  · simp [digitByte_ne_colon (v.val / 100) (by omega),
      digitByte_ne_colon (v.val / 10 % 10) (by omega),
      digitByte_ne_colon (v.val % 10) (by omega)]

/-- Go `appendHex` keeps what is already written. -/
theorem mem_appendHex (c : Char) (dst : List Char) (i : Nat) (h : c ∈ dst) :
    c ∈ appendHex dst i := by
  unfold appendHex
  split_ifs
  · exact List.mem_append_left _ h
  · generalize [7, 6, 5, 4, 3, 2, 1, 0] = l
    induction l generalizing dst with
    | nil => exact h
    | cons j l ih =>
      rw [List.foldl_cons]
      apply ih
      dsimp only
      split_ifs
      · exact List.mem_append_left _ h
      · exact h

/-- The printing loop keeps what is already written. -/
theorem mem_printGroups (p : List Byte) (e0 e1 : Int) (c : Char) (fuel : Nat) :
    ∀ (i : Nat) (b : List Char), c ∈ b → c ∈ printGroups p e0 e1 fuel i b := by
  induction fuel with
  | zero => intro i b h; exact h
  | succ fuel ih =>
    intro i b h
    rw [printGroups]
    dsimp only
    split_ifs <;> first
      | exact h
      | exact List.mem_append_left _ h
      | exact ih _ _ (mem_appendHex _ _ _ (List.mem_append_left _ h))
      | exact ih _ _ (mem_appendHex _ _ _ h)

/-- The IPv6 form written by the printing loop has a colon. -/
theorem colon_mem_printGroups (p : List Byte) (e0 e1 : Int) :
    ':' ∈ printGroups p e0 e1 8 0 [] := by
  have hm : ∀ (b : List Char) (fuel i g : Nat), ':' ∈ b →
      ':' ∈ printGroups p e0 e1 fuel i (appendHex b g) :=
    fun b fuel i g hb => mem_printGroups _ _ _ _ _ _ _ (mem_appendHex _ _ _ hb)
  have h2 : ':' ∈ [':', ':'] := by simp
  have h1 : ∀ b : List Char, ':' ∈ b ++ [':'] := by simp
  have h3 : ∀ b : List Char, ':' ∈ b ++ [':', ':'] := by simp
  rw [printGroups]
  dsimp only
  split_ifs <;> first
    | (exfalso; simp [IPv6len] at *; done)
    | exact h3 _
    | exact hm _ _ _ _ (h3 _)
    | (rw [printGroups]
       dsimp only
       split_ifs <;> first
        | (exfalso; omega)
        | (exfalso; simp [IPv6len] at *; done)
        | exact h3 _
        | exact hm _ _ _ _ (h3 _)
        | exact hm _ _ _ _ (h1 _))


/-! ## The loops of `net.IP.String` have enough fuel -/

/-- The inner loop ends within the fuel that reaches the end of the address:
more fuel gives the same `j`. -/
theorem zeroRunEnd_fuel (p : List Byte) (fuel : Nat) :
    ∀ (k j : Nat), IPv6len ≤ j + 2 * fuel →
      zeroRunEnd p (fuel + k) j = zeroRunEnd p fuel j := by
  induction fuel with
  | zero =>
    intro k j h
    cases k with
    | zero => rfl
    | succ k =>
      have hj : ¬ (j < IPv6len ∧ p.getD j 0 = 0 ∧ p.getD (j + 1) 0 = 0) := by
        intro hc; omega
      simp only [Nat.zero_add, zeroRunEnd, if_neg hj]
  | succ fuel ih =>
    intro k j h
    have e : fuel + 1 + k = (fuel + k) + 1 := by omega
    rw [e, zeroRunEnd, zeroRunEnd]
    split_ifs
    · exact ih k (j + 2) (by omega)
    · rfl

/-- The search of the longest run of zeros ends within the fuel that reaches the
end of the address: more fuel gives the same `(e0, e1)`. -/
theorem longestZeroRun_fuel (p : List Byte) (fuel : Nat) :
    ∀ (k i : Nat) (e0 e1 : Int), IPv6len ≤ i + 2 * fuel →
      longestZeroRun p (fuel + k) i e0 e1 = longestZeroRun p fuel i e0 e1 := by
  induction fuel with
  | zero =>
    intro k i e0 e1 h
    cases k with
    | zero => rfl
    | succ k =>
      have hi : ¬ i < IPv6len := by omega
      simp only [Nat.zero_add, longestZeroRun, if_neg hi]
  | succ fuel ih =>
    intro k i e0 e1 h
    have e : fuel + 1 + k = (fuel + k) + 1 := by omega
    rw [e, longestZeroRun, longestZeroRun]
    dsimp only
    split_ifs with h1 h2
    · exact ih k _ _ _ (by omega)
    · exact ih k _ _ _ (by omega)
    · rfl

/-- The printing loop ends within the fuel that reaches the end of the address,
when the run of zeros is absent (`e0 < 0`) or well formed (`e0 < e1`): more
fuel gives the same text. -/
theorem printGroups_fuel (p : List Byte) (e0 e1 : Int) (he : e0 < 0 ∨ e0 < e1) (fuel : Nat) :
    ∀ (k i : Nat) (b : List Char), IPv6len ≤ i + 2 * fuel →
      printGroups p e0 e1 (fuel + k) i b = printGroups p e0 e1 fuel i b := by
  induction fuel with
  | zero =>
    intro k i b h
    cases k with
    | zero => rfl
    | succ k =>
      have hi : ¬ i < IPv6len := by omega
      simp only [Nat.zero_add, printGroups, if_neg hi]
  | succ fuel ih =>
    intro k i b h
    have e : fuel + 1 + k = (fuel + k) + 1 := by omega
    rw [e, printGroups, printGroups]
    dsimp only
    split_ifs with h1 h2 h3
    · rfl
    · exact ih k _ _ (by omega)
    · exact ih k _ _ (by omega)
    · exact ih k _ _ (by omega)
    · rfl

/-- The IPv6 text of `IPString` is the text the loops give with any larger
fuel. -/
theorem IPString_fuel (ip : List Byte) (k k' : Nat) :
    printGroups ip
        (if (longestZeroRun ip (8 + k) 0 (-1) (-1)).2 - (longestZeroRun ip (8 + k) 0 (-1) (-1)).1
            ≤ 2 then ((-1 : Int), (-1 : Int)) else longestZeroRun ip (8 + k) 0 (-1) (-1)).1
        (if (longestZeroRun ip (8 + k) 0 (-1) (-1)).2 - (longestZeroRun ip (8 + k) 0 (-1) (-1)).1
            ≤ 2 then ((-1 : Int), (-1 : Int)) else longestZeroRun ip (8 + k) 0 (-1) (-1)).2
        (8 + k') 0 [] =
      printGroups ip
        (if (longestZeroRun ip 8 0 (-1) (-1)).2 - (longestZeroRun ip 8 0 (-1) (-1)).1
            ≤ 2 then ((-1 : Int), (-1 : Int)) else longestZeroRun ip 8 0 (-1) (-1)).1
        (if (longestZeroRun ip 8 0 (-1) (-1)).2 - (longestZeroRun ip 8 0 (-1) (-1)).1
            ≤ 2 then ((-1 : Int), (-1 : Int)) else longestZeroRun ip 8 0 (-1) (-1)).2
        8 0 [] := by
  rw [longestZeroRun_fuel ip 8 k 0 (-1) (-1) (by decide)]
  apply printGroups_fuel _ _ _ _ 8 k' 0 [] (by decide)
  split_ifs with h
  · left; decide
  · right; omega

/-- Go `(*TCPAddr).String` for a non-empty IP, a port number and no zone. -/
theorem TCPAddr_String_eq (ip : List Byte) (p : Nat) (hp : p < 65536) (hlen : ip.length ≠ 0) :
    TCPAddr.String ⟨ip, (p : Int), ""⟩ =
      String.mk (JoinHostPort (IPString ip) (Nat.toDigits 10 p)) := by
  simp only [TCPAddr.String, ipEmptyString, if_neg hlen, Itoa_port p hp]
  simp

/-- The textual form of an IPv4 address and a port. -/
theorem String_v4 (a b c d : Byte) (p : Nat) (hp : p < 65536) :
    TCPAddr.String ⟨[a, b, c, d], (p : Int), ""⟩ =
      dottedDecimal a b c d ++ ":" ++ toString p := by
  rw [TCPAddr_String_eq _ _ hp (by simp)]
  have hip : IPString [a, b, c, d] =
      ubtoa a ++ ['.'] ++ ubtoa b ++ ['.'] ++ ubtoa c ++ ['.'] ++ ubtoa d := by
    simp [IPString, To4, IPv4len]
  have hc : ':' ∉ IPString [a, b, c, d] := by
    rw [hip]
    simp [colon_not_mem_ubtoa]
  rw [JoinHostPort, if_neg hc, hip, ubtoa_eq, ubtoa_eq, ubtoa_eq, ubtoa_eq]
  rfl

/-- The textual form of a 16-byte address that is not IPv4-mapped, and a port:
the host is in brackets. -/
theorem String_v6 (ip : List Byte) (p : Nat) (hp : p < 65536) (hlen : ip.length = 16)
    (h4 : To4 ip = none) :
    TCPAddr.String ⟨ip, (p : Int), ""⟩ =
      "[" ++ String.mk (IPString ip) ++ "]:" ++ toString p := by
  rw [TCPAddr_String_eq _ _ hp (by omega)]
  have hc : ':' ∈ IPString ip := by
    have h0 : ¬ ip.length = 0 := by omega
    simp only [IPString, h4, if_neg h0, hlen, IPv6len, ne_eq, not_true_eq_false, if_false]
    exact colon_mem_printGroups _ _ _
  rw [JoinHostPort, if_pos hc]
  rfl

/-- The textual form of an IPv4-mapped 16-byte address and a port: the dotted
decimal form of its last four bytes, without brackets. -/
theorem String_mapped (ip : List Byte) (p : Nat) (hp : p < 65536) (hlen : ip.length = 16)
    (h4 : To4 ip ≠ none) :
    TCPAddr.String ⟨ip, (p : Int), ""⟩ =
      dottedDecimal (ip.getD 12 0) (ip.getD 13 0) (ip.getD 14 0) (ip.getD 15 0) ++ ":" ++
        toString p := by
  have e4 : To4 ip = some (slice ip 12 16) := by
    unfold To4 at h4 ⊢
    have hn : ¬ ip.length = IPv4len := by rw [hlen]; decide
    rw [if_neg hn] at h4 ⊢
    split_ifs at h4 ⊢ with hc
    · rfl
    · exact absurd rfl h4
  have es : slice ip 12 16 = [ip.getD 12 0, ip.getD 13 0, ip.getD 14 0, ip.getD 15 0] := by
    iterate 16 (rcases ip with _ | ⟨_, ip⟩; · simp at hlen)
    rcases ip with _ | ⟨_, ip⟩
    · rfl
    · simp at hlen
  have e : TCPAddr.String ⟨ip, (p : Int), ""⟩ =
      TCPAddr.String ⟨slice ip 12 16, (p : Int), ""⟩ := by
    rw [TCPAddr_String_eq _ _ hp (by omega), TCPAddr_String_eq _ _ hp (by rw [es]; simp)]
    have h0 : ¬ ip.length = 0 := by omega
    have e1 : IPString ip = IPString (slice ip 12 16) := by
      rw [es] at e4 ⊢
      have ea : IPString ip =
          ubtoa (ip.getD 12 0) ++ ['.'] ++ ubtoa (ip.getD 13 0) ++ ['.'] ++
            ubtoa (ip.getD 14 0) ++ ['.'] ++ ubtoa (ip.getD 15 0) := by
        simp only [IPString, e4, if_neg h0]
        rfl
      rw [ea]
      simp [IPString, To4, IPv4len]
    rw [e1]
  rw [e, es]
  exact String_v4 _ _ _ _ p hp

/-- The port decoded from two bytes is a port number. -/
theorem port_lt (b : Mathlib.Vector Byte 2) : 256 * (b.get 0).val + (b.get 1).val < 65536 := by
  have h0 := (b.get 0).isLt
  have h1 := (b.get 1).isLt
  omega

/-- C10 (amended): the endpoint given to `DialTCP` is `dest.String()` of the
resolved destination. For an `AF_INET` record it is the dotted decimal form of
the payload bytes `0..3`, a colon, and the port in decimal. For an `AF_INET6`
record whose address bytes are not IPv4-mapped it is the IPv6 form in square
brackets, a colon, and the port in decimal. For an `AF_INET6` record whose
address bytes are IPv4-mapped it is the dotted decimal form of the payload
bytes `16..19`, a colon, and the port in decimal, without brackets. -/
theorem dialTCP_endpoint (addr : sockAddr) (dest : TCPAddr)
    (hdec : decodeAddr addr = ⟨some dest, none⟩) :
    (∀ (r : TCPRedirect) (s : Session), (getDestAddr s.conn).res = ⟨some dest, none⟩ →
      IsLoopback dest.IP = false →
      ∀ ep : String, Event.dialTCP ep ∈ handleConn r s ↔ ep = dest.String) ∧
    (addr.family.val = AF_INET →
      dest.String =
        dottedDecimal (addr.data.get 0) (addr.data.get 1) (addr.data.get 2) (addr.data.get 3)
          ++ ":" ++ toString (256 * (addr.port.get 0).val + (addr.port.get 1).val)) ∧
    (addr.family.val = AF_INET6 → To4 (slice addr.data.toList 4 20) = none →
      dest.String =
        "[" ++ String.mk (IPString (slice addr.data.toList 4 20)) ++ "]:" ++
          toString (256 * (addr.port.get 0).val + (addr.port.get 1).val)) ∧
    (addr.family.val = AF_INET6 → To4 (slice addr.data.toList 4 20) ≠ none →
      dest.String =
        dottedDecimal (addr.data.get 16) (addr.data.get 17) (addr.data.get 18)
            (addr.data.get 19)
          ++ ":" ++ toString (256 * (addr.port.get 0).val + (addr.port.get 1).val)) := by
  refine ⟨?_, ?_, ?_, ?_⟩
  · intro r s h hl ep
    cases hd : r.HyClient dest.String with
    | error e =>
      rw [handleConn_of_dial_error r s dest e h hl hd]
      simp
    | ok id =>
      rw [handleConn_of_dial_ok r s dest id h hl hd]
      simp
  · intro hf
    rw [decodeAddr_inet_eq addr hf] at hdec
    simp only [AddrResult.mk.injEq, Option.some.injEq, and_true] at hdec
    rw [← hdec]
    exact String_v4 _ _ _ _ _ (port_lt _)
  · intro hf h4
    rw [decodeAddr_inet6_eq addr hf, ← slice_data_4_20] at hdec
    simp only [AddrResult.mk.injEq, Option.some.injEq, and_true] at hdec
    rw [← hdec]
    exact String_v6 _ _ (port_lt _) (by rw [slice_data_4_20]; rfl) h4
  · intro hf h4
    rw [decodeAddr_inet6_eq addr hf, ← slice_data_4_20] at hdec
    simp only [AddrResult.mk.injEq, Option.some.injEq, and_true] at hdec
    rw [← hdec, String_mapped _ _ (port_lt _) (by rw [slice_data_4_20]; rfl) h4,
      slice_data_4_20]
    rfl

/-- Witness of `dialTCP_endpoint`: the `AF_INET6` record of `::ffff:1.2.3.4`,
port 80, whose endpoint is `1.2.3.4:80`. -/
theorem dialTCP_endpoint_witness :
    TCPAddr.String ⟨[0, 0, 0, 0, 0, 0, 0, 0, 0, 0, 0xff, 0xff, 1, 2, 3, 4], 80, ""⟩ =
      dottedDecimal (mappedRecord.data.get 16) (mappedRecord.data.get 17)
          (mappedRecord.data.get 18) (mappedRecord.data.get 19)
        ++ ":" ++
        toString (256 * (mappedRecord.port.get 0).val + (mappedRecord.port.get 1).val) :=
  (dialTCP_endpoint mappedRecord
    ⟨[0, 0, 0, 0, 0, 0, 0, 0, 0, 0, 0xff, 0xff, 1, 2, 3, 4], 80, ""⟩ (by decide)).2.2.2
    (by decide) (by decide)

/-- C10 as stated fails: for the `AF_INET6` record of the IPv4-mapped address
`::ffff:1.2.3.4` and port 80, resolved successfully to a non-loopback
destination, the endpoint given to `DialTCP` is `1.2.3.4:80`, which is not a
host in square brackets followed by a colon and the port. -/
theorem dialTCP_endpoint_mapped_counterexample :
    mappedRecord.family.val = AF_INET6 ∧
    (getDestAddr mappedSession.conn).res =
      ⟨some ⟨[0, 0, 0, 0, 0, 0, 0, 0, 0, 0, 0xff, 0xff, 1, 2, 3, 4], 80, ""⟩, none⟩ ∧
    IsLoopback [0, 0, 0, 0, 0, 0, 0, 0, 0, 0, 0xff, 0xff, 1, 2, 3, 4] = false ∧
    handleConn sampleRedirect mappedSession =
      [Event.getDestAddr Conn.accepted,
        Event.isLoopback [0, 0, 0, 0, 0, 0, 0, 0, 0, 0, 0xff, 0xff, 1, 2, 3, 4],
        Event.connFunc ⟨[10, 0, 0, 2], 40000, ""⟩
          ⟨[0, 0, 0, 0, 0, 0, 0, 0, 0, 0, 0xff, 0xff, 1, 2, 3, 4], 80, ""⟩,
        Event.dialTCP "1.2.3.4:80",
        Event.pipePairWithTimeout Conn.accepted (Conn.upstream 1) 300,
        Event.errorFunc ⟨[10, 0, 0, 2], 40000, ""⟩
          ⟨[0, 0, 0, 0, 0, 0, 0, 0, 0, 0, 0xff, 0xff, 1, 2, 3, 4], 80, ""⟩ none,
        Event.close (Conn.upstream 1), Event.close Conn.accepted] ∧
    ¬ ∃ host : String, "1.2.3.4:80" = "[" ++ host ++ "]:" ++ "80" := by
  refine ⟨by decide, by decide, by decide, by decide, ?_⟩
  rintro ⟨host, h⟩
  have h2 := congrArg String.data h
  simp at h2

end Redirect
